import Mathlib

/-!
Shallow embedding of the advertising safety-and-audit layer of the
`cmo-agent` repository: the `AdsConfig` loader and accessors, the
`GoogleAdsAPI` and `LinkedInAdsAPI` mutating operations with their safety
rails (`src/tools/google_ads.py`, `src/tools/linkedin_ads.py`), the
`AuditLogger` (`src/tools/audit.py`) and the error catalog
(`src/tools/errors.py`).

Python dictionaries are modelled by the JSON-like type `Jx`; currency
amounts by `ℚ`; network effects by an explicit environment record holding
the platform responses, and each operation returns an `Outcome` carrying
the result dictionary, the list of gateway calls it dispatched and the
list of audit events it emitted.
-/

namespace CmoAds

/-- JSON-like values: the shape of the Python dicts the tools build and
return (`None`, booleans, numbers, strings, lists, dicts). -/
inductive Jx where
  | null
  | bool (b : Bool)
  | num (q : ℚ)
  | str (s : String)
  | arr (elems : List Jx)
  | obj (fields : List (String × Jx))

/-- First-match association-list lookup, the semantics of `d.get(k)` /
`k in d` on the dicts built by the tools. -/
def assocLookup {α : Type} : List (String × α) → String → Option α
  | [], _ => none
  | (k2, v) :: rest, k => if k2 = k then some v else assocLookup rest k

/-- Semantics of `d.get(key)` on a `Jx` dict (`none` on non-dicts). -/
def Jx.get? : Jx → String → Option Jx
  | .obj fields, k => assocLookup fields k
  | _, _ => none

/-- Semantics of `key in d` on a `Jx` dict. -/
def Jx.hasKey (j : Jx) (k : String) : Bool := (j.get? k).isSome

/-- Substring containment, used to state that an error message contains a
required phrase. -/
def strContains (s sub : String) : Prop :=
  ∃ p q, s.data = p ++ sub.data ++ q

/-- Rendering of a Python float into an f-string (`str(x)` / `f"{x}"`).
The exact digits are never relied on by any theorem. -/
def moneyStr (q : ℚ) : String := toString q

/-- Rendering of a Python float with the `:.2f` format specifier.
The exact digits are never relied on by any theorem. -/
def fmt2 (q : ℚ) : String := toString q

/-- Semantics of `int(q)` on a float: truncation toward zero. -/
def intTrunc (q : ℚ) : Int := q.num / (q.den : Int)

/-- Python truthiness of an `Optional[float]`: `None` and `0` are falsy. -/
def pyTruthy : Option ℚ → Bool
  | none => false
  | some q => q != 0

/-- Semantics of Python `str.lower()` (character-wise, as for the ASCII
keys of the denylist). -/
def pyLower (s : String) : String := ⟨s.data.map Char.toLower⟩

/-- Semantics of Python `str.upper()` (character-wise, as for the ASCII
status names). -/
def pyUpper (s : String) : String := ⟨s.data.map Char.toUpper⟩

-- ===========================================================================
-- AdsConfig (google_ads.py lines 69-115, linkedin_ads.py lines 49-103)
-- ===========================================================================

/-- The fields of the parsed `ads_config.yaml` the safety layer reads,
each optional because the YAML file may omit it (the accessors supply the
defaults, mirroring the chained `.get(..., default)` calls). -/
structure ConfigDict where
  max_daily_budget : Option ℚ
  max_total_budget : Option ℚ
  max_cpc_bid : Option ℚ
  force_draft_mode : Option Bool
  require_confirmation : Option Bool

/-- The three states of the configuration source seen by
`AdsConfig._load_config`: the file is absent (or the `yaml` module is not
importable), the file exists but `yaml.safe_load` raises, or the file
parses. -/
inductive ConfigSource where
  | missing
  | unparsable (msg : String)
  | parsed (cfg : ConfigDict)

/-- Behaviour of `AdsConfig._load_config`: an absent file yields the
hard-coded default dict; a file that parses is returned as-is; a file on
which `yaml.safe_load` raises propagates the exception (there is no
`try`/`except` around the parse). -/
def loadConfig (defaults : ConfigDict) : ConfigSource → Except String ConfigDict
  | .missing => .ok defaults
  | .unparsable msg => .error msg
  | .parsed cfg => .ok cfg

/-- The default config dict of `google_ads.AdsConfig._load_config`:
budgets 0, `max_cpc_bid` 5.00, `force_draft_mode` and
`require_confirmation` true. -/
def googleDefaultConfig : ConfigDict :=
  ⟨some 0, some 0, some 5, some true, some true⟩

/-- The default config dict of `linkedin_ads.AdsConfig._load_config`:
budgets 0, `max_cpc_bid` 10.00, `force_draft_mode` and
`require_confirmation` true. -/
def linkedinDefaultConfig : ConfigDict :=
  ⟨some 0, some 0, some 10, some true, some true⟩

/-- `AdsConfig.get_max_daily_budget` (default 0). -/
def get_max_daily_budget (c : ConfigDict) : ℚ := c.max_daily_budget.getD 0

/-- `google_ads.AdsConfig.get_max_cpc_bid` (default 5.00). -/
def google_get_max_cpc_bid (c : ConfigDict) : ℚ := c.max_cpc_bid.getD 5

/-- `linkedin_ads.AdsConfig.get_max_cpc_bid` (default 10.00). -/
def linkedin_get_max_cpc_bid (c : ConfigDict) : ℚ := c.max_cpc_bid.getD 10

/-- `AdsConfig.force_draft_mode` (default true). -/
def cfg_force_draft_mode (c : ConfigDict) : Bool := c.force_draft_mode.getD true

/-- `AdsConfig.require_confirmation` (default true). -/
def cfg_require_confirmation (c : ConfigDict) : Bool :=
  c.require_confirmation.getD true

-- ===========================================================================
-- AuditLogger (audit.py)
-- ===========================================================================

/-- The `AuditEvent` dataclass of `audit.py` (field for field). -/
structure AuditEvent where
  timestamp : String
  event_type : String
  severity : String
  platform : String
  operation : String
  success : Bool
  user_id : Option String
  account_id : Option String
  campaign_id : Option String
  details : Option Jx
  error_message : Option String
  request_data : Option Jx
  response_summary : Option Jx

/-- The sensitive-key denylist of `AuditLogger._sanitize_request`. -/
def sensitive_fields : List String :=
  ["api_key", "access_token", "refresh_token", "client_secret",
   "password", "secret", "token", "authorization"]

mutual

/-- The inner `redact` closure of `AuditLogger._sanitize_request`: in a
dict, a value whose key lower-cases into the denylist is replaced by the
marker, any other value is redacted recursively; lists are redacted
element-wise; leaves are returned unchanged. -/
def redact : Jx → Jx
  | .obj fields => .obj (redactFields fields)
  | .arr elems => .arr (redactElems elems)
  | j => j
termination_by structural j => j

def redactFields : List (String × Jx) → List (String × Jx)
  | [] => []
  | (k, v) :: rest =>
      (k, if pyLower k ∈ sensitive_fields then .str "[REDACTED]" else redact v)
        :: redactFields rest
termination_by structural fs => fs

def redactElems : List Jx → List Jx
  | [] => []
  | j :: rest => redact j :: redactElems rest
termination_by structural xs => xs

end

/-- `AuditLogger._sanitize_request`: `None` passes through, otherwise the
request dict is redacted. -/
def sanitize_request : Option Jx → Option Jx
  | none => none
  | some j => some (redact j)

/-- Marker test: the value is exactly the fixed redaction string. -/
def isMarker : Jx → Bool
  | .str s => s == "[REDACTED]"
  | _ => false

mutual

/-- Decidable statement of redaction totality: at every nesting depth of
dicts and lists, every value under a denylisted key is the marker. -/
def fullyRedacted : Jx → Bool
  | .obj fields => fieldsRedacted fields
  | .arr elems => elemsRedacted elems
  | _ => true
termination_by structural j => j

def fieldsRedacted : List (String × Jx) → Bool
  | [] => true
  | (k, v) :: rest =>
      (if pyLower k ∈ sensitive_fields then isMarker v else fullyRedacted v)
        && fieldsRedacted rest
termination_by structural fs => fs

def elemsRedacted : List Jx → Bool
  | [] => true
  | j :: rest => fullyRedacted j && elemsRedacted rest
termination_by structural xs => xs

end

/-- Helper for `AuditEvent.to_dict`: a `None` field is omitted entirely. -/
def optField (k : String) : Option Jx → List (String × Jx)
  | none => []
  | some v => [(k, v)]

/-- `AuditEvent.to_dict`: the written JSON object, in dataclass field
order, with `None` fields excluded. -/
def AuditEvent.to_dict (e : AuditEvent) : Jx :=
  .obj ([("timestamp", .str e.timestamp),
         ("event_type", .str e.event_type),
         ("severity", .str e.severity),
         ("platform", .str e.platform),
         ("operation", .str e.operation),
         ("success", .bool e.success)]
        ++ optField "user_id" (e.user_id.map .str)
        ++ optField "account_id" (e.account_id.map .str)
        ++ optField "campaign_id" (e.campaign_id.map .str)
        ++ optField "details" e.details
        ++ optField "error_message" (e.error_message.map .str)
        ++ optField "request_data" e.request_data
        ++ optField "response_summary" e.response_summary)

/-- `AuditLogger.log`: when the logger is enabled, exactly one event is
written, with `request_data` sanitized and every other argument stored
as passed (in particular `details` is NOT sanitized); when disabled,
nothing is written.  `now` stands for `datetime.utcnow().isoformat()`. -/
def auditLog (enabled : Bool) (now : String)
    (event_type platform operation : String) (success : Bool)
    (severity : String) (account_id campaign_id : Option String)
    (details : Option Jx) (error_message : Option String)
    (request_data response_summary : Option Jx) : List AuditEvent :=
  if enabled then
    [{ timestamp := now ++ "Z", event_type := event_type, severity := severity,
       platform := platform, operation := operation, success := success,
       user_id := none, account_id := account_id, campaign_id := campaign_id,
       details := details, error_message := error_message,
       request_data := sanitize_request request_data,
       response_summary := response_summary }]
  else []

/-- `AuditLogger.log_budget_limit_exceeded`: event type
`budget_limit_exceeded`, success false, severity warning, with the
requested and maximum budgets in the details. -/
def log_budget_limit_exceeded (enabled : Bool) (now platform : String)
    (requested maximum : ℚ) : List AuditEvent :=
  auditLog enabled now "budget_limit_exceeded" platform
    ("Budget $" ++ fmt2 requested ++ " exceeds limit $" ++ fmt2 maximum)
    false "warning" none none
    (some (.obj [("requested_budget", .num requested),
                 ("maximum_allowed", .num maximum),
                 ("config_file", .str "tools/ads_config.yaml")]))
    none none none

/-- `AuditLogger.log_confirmation_required`: event type
`confirmation_required`, success false (operation not completed),
severity info. -/
def log_confirmation_required (enabled : Bool)
    (now platform operation reason : String) : List AuditEvent :=
  auditLog enabled now "confirmation_required" platform operation
    false "info" none none
    (some (.obj [("reason", .str reason)]))
    none none none

-- ===========================================================================
-- Error catalog (errors.py)
-- ===========================================================================

/-- The `RecoveryGuidance` dataclass of `errors.py`. -/
structure RecoveryGuidance where
  summary : String
  steps : List String
  docs_url : Option String
  retry_after : Option Nat

/-- Apollo entries of `RECOVERY_GUIDES`. -/
def apolloGuides : List (String × RecoveryGuidance) :=
  [("401",
    ⟨"Apollo API key is invalid or expired",
     ["1. Log into Apollo: https://app.apollo.io/#/settings/integrations/api",
      "2. Generate a new API key",
      "3. Update APOLLO_API_KEY in your .env file",
      "4. Restart the agent"],
     some "https://apolloio.github.io/apollo-api-docs/#authentication", none⟩),
   ("403",
    ⟨"Apollo API access denied - check your plan limits",
     ["1. Check your Apollo plan: https://app.apollo.io/#/settings/plans",
      "2. Verify the endpoint is included in your plan",
      "3. Check if you\x27ve exceeded monthly credits"],
     some "https://apollo.io/pricing", none⟩),
   ("429",
    ⟨"Apollo rate limit exceeded",
     ["1. Wait 60 seconds before retrying",
      "2. Reduce request frequency",
      "3. Consider upgrading your Apollo plan for higher limits"],
     none, some 60⟩),
   ("missing_credential",
    ⟨"Apollo API key not configured",
     ["1. Get your API key: https://app.apollo.io/#/settings/integrations/api",
      "2. Add to .env file: APOLLO_API_KEY=your_key_here",
      "3. Restart the agent"],
     none, none⟩)]

/-- Firecrawl entries of `RECOVERY_GUIDES`. -/
def firecrawlGuides : List (String × RecoveryGuidance) :=
  [("401",
    ⟨"Firecrawl API key is invalid",
     ["1. Log into Firecrawl: https://firecrawl.dev/dashboard",
      "2. Copy your API key",
      "3. Update FIRECRAWL_API_KEY in your .env file"],
     some "https://docs.firecrawl.dev/authentication", none⟩),
   ("402",
    ⟨"Firecrawl credits exhausted",
     ["1. Check your usage: https://firecrawl.dev/dashboard",
      "2. Wait for monthly reset or upgrade your plan",
      "3. Free tier: 500 credits/month"],
     some "https://firecrawl.dev/pricing", none⟩),
   ("429",
    ⟨"Firecrawl rate limit exceeded",
     ["1. Wait 30 seconds before retrying",
      "2. Reduce concurrent requests"],
     none, some 30⟩),
   ("missing_credential",
    ⟨"Firecrawl API key not configured",
     ["1. Sign up at: https://firecrawl.dev",
      "2. Get API key from dashboard",
      "3. Add to .env file: FIRECRAWL_API_KEY=your_key_here"],
     none, none⟩)]

/-- Clearbit entries of `RECOVERY_GUIDES`. -/
def clearbitGuides : List (String × RecoveryGuidance) :=
  [("401",
    ⟨"Clearbit API key is invalid",
     ["1. Log into Clearbit: https://dashboard.clearbit.com/api",
      "2. Generate a new API key",
      "3. Update CLEARBIT_API_KEY in your .env file"],
     none, none⟩),
   ("402",
    ⟨"Clearbit requires a paid plan",
     ["1. Clearbit has no free tier",
      "2. Sign up for a plan: https://clearbit.com/pricing",
      "3. Alternative: Use Apollo for company data (has free tier)"],
     none, none⟩),
   ("missing_credential",
    ⟨"Clearbit API key not configured",
     ["1. Clearbit requires a paid subscription",
      "2. Sign up: https://clearbit.com",
      "3. Add to .env: CLEARBIT_API_KEY=your_key_here",
      "4. Alternative: Use Apollo\x27s company enrichment (free tier available)"],
     none, none⟩)]

/-- Google Ads entries of `RECOVERY_GUIDES`. -/
def googleAdsGuides : List (String × RecoveryGuidance) :=
  [("AUTHENTICATION_ERROR",
    ⟨"Google Ads authentication failed",
     ["1. Check your OAuth credentials in .env",
      "2. Regenerate refresh token using OAuth flow",
      "3. Verify developer token is approved",
      "4. See setup guide: agents/ads/google-ads.md"],
     some "https://developers.google.com/google-ads/api/docs/oauth/overview", none⟩),
   ("AUTHORIZATION_ERROR",
    ⟨"Not authorized to access this Google Ads account",
     ["1. Verify GOOGLE_ADS_LOGIN_CUSTOMER_ID is correct",
      "2. Check account access in Google Ads UI",
      "3. Ensure API access is enabled for the account"],
     none, none⟩),
   ("QUOTA_ERROR",
    ⟨"Google Ads API quota exceeded",
     ["1. Wait until quota resets (usually daily)",
      "2. Check quota usage in Google Cloud Console",
      "3. Request quota increase if needed"],
     some "https://developers.google.com/google-ads/api/docs/best-practices/quotas", none⟩),
   ("missing_credential",
    ⟨"Google Ads credentials not configured",
     ["1. Create Google Cloud project with Ads API enabled",
      "2. Create OAuth 2.0 credentials",
      "3. Get developer token from Google Ads API Center",
      "4. Set all GOOGLE_ADS_* variables in .env",
      "5. See detailed guide: agents/ads/google-ads.md"],
     some "https://developers.google.com/google-ads/api/docs/first-call/overview", none⟩),
   ("BUDGET_EXCEEDED",
    ⟨"Campaign budget exceeds configured limit",
     ["1. Check max_daily_budget in tools/ads_config.yaml",
      "2. Reduce budget amount or increase limit",
      "3. Current limit is set for safety - modify carefully"],
     none, none⟩)]

/-- LinkedIn Ads entries of `RECOVERY_GUIDES`. -/
def linkedinAdsGuides : List (String × RecoveryGuidance) :=
  [("401",
    ⟨"LinkedIn access token is invalid or expired",
     ["1. LinkedIn tokens expire after 60 days",
      "2. Regenerate token using OAuth flow",
      "3. Update LINKEDIN_ACCESS_TOKEN in .env",
      "4. See guide: agents/ads/linkedin-ads.md"],
     some "https://learn.microsoft.com/en-us/linkedin/shared/authentication/authorization-code-flow",
     none⟩),
   ("403",
    ⟨"LinkedIn API access denied",
     ["1. Verify your app has Marketing Developer Platform access",
      "2. Check required scopes: r_ads, r_ads_reporting, w_organization_social",
      "3. Verify LINKEDIN_AD_ACCOUNT_ID is correct"],
     none, none⟩),
   ("429",
    ⟨"LinkedIn rate limit exceeded",
     ["1. Wait 60 seconds before retrying",
      "2. LinkedIn allows 100 requests/minute",
      "3. Reduce request frequency"],
     none, some 60⟩),
   ("missing_credential",
    ⟨"LinkedIn Ads credentials not configured",
     ["1. Create LinkedIn Developer App: https://www.linkedin.com/developers/apps",
      "2. Request Marketing Developer Platform access",
      "3. Generate OAuth 2.0 access token",
      "4. Set LINKEDIN_* variables in .env",
      "5. See guide: agents/ads/linkedin-ads.md"],
     none, none⟩),
   ("BUDGET_EXCEEDED",
    ⟨"Campaign budget exceeds configured limit",
     ["1. Check max_daily_budget in tools/ads_config.yaml",
      "2. Reduce budget or increase configured limit",
      "3. Default limit is $0 (testing mode)"],
     none, none⟩)]

/-- Proxycurl entries of `RECOVERY_GUIDES`. -/
def proxycurlGuides : List (String × RecoveryGuidance) :=
  [("401",
    ⟨"Proxycurl API key is invalid",
     ["1. Log into Proxycurl: https://nubela.co/proxycurl/",
      "2. Get your API key from the dashboard",
      "3. Update PROXYCURL_API_KEY in .env"],
     none, none⟩),
   ("403",
    ⟨"Proxycurl credits exhausted",
     ["1. Check your credit balance: https://nubela.co/proxycurl/",
      "2. Free tier: 10 credits/month",
      "3. Purchase more credits or wait for reset"],
     none, none⟩),
   ("missing_credential",
    ⟨"Proxycurl API key not configured",
     ["1. Sign up: https://nubela.co/proxycurl/",
      "2. Get API key from dashboard",
      "3. Add to .env: PROXYCURL_API_KEY=your_key_here"],
     none, none⟩)]

/-- The `RECOVERY_GUIDES` database of `errors.py`. -/
def RECOVERY_GUIDES : List (String × List (String × RecoveryGuidance)) :=
  [("apollo", apolloGuides),
   ("firecrawl", firecrawlGuides),
   ("clearbit", clearbitGuides),
   ("google_ads", googleAdsGuides),
   ("linkedin_ads", linkedinAdsGuides),
   ("proxycurl", proxycurlGuides)]

/-- Exact lookup `RECOVERY_GUIDES.get(service, {}).get(error_code)`. -/
def lookupGuides (service code : String) : Option RecoveryGuidance :=
  match assocLookup RECOVERY_GUIDES service with
  | none => none
  | some gs => assocLookup gs code

/-- `_get_generic_guidance`: generic guidance for the common codes 401,
403, 429 and 500; `none` otherwise. -/
def generic_guidance (code : String) : Option RecoveryGuidance :=
  assocLookup
    [("401",
      ⟨"Authentication failed",
       ["1. Check your API key or token in .env",
        "2. Verify the key hasn\x27t expired",
        "3. Regenerate credentials if needed"],
       none, none⟩),
     ("403",
      ⟨"Access denied",
       ["1. Check your account permissions",
        "2. Verify you have access to this resource",
        "3. Check if your plan includes this feature"],
       none, none⟩),
     ("429",
      ⟨"Rate limit exceeded",
       ["1. Wait before retrying (usually 30-60 seconds)",
        "2. Reduce request frequency",
        "3. Consider upgrading your plan"],
       none, some 60⟩),
     ("500",
      ⟨"Server error",
       ["1. Wait a moment and retry",
        "2. Check service status page",
        "3. If persistent, contact support"],
       none, some 30⟩)]
    code

/-- `_categorize_error`: the closed error taxonomy keyed by code. -/
def categorize_error (code : String) : String :=
  if code ∈ ["401", "AUTHENTICATION_ERROR"] then "authentication"
  else if code ∈ ["403", "AUTHORIZATION_ERROR"] then "authorization"
  else if code ∈ ["429", "RATE_LIMIT"] then "rate_limit"
  else if code ∈ ["400", "VALIDATION_ERROR"] then "validation"
  else if code ∈ ["404", "NOT_FOUND"] then "not_found"
  else if code ∈ ["402", "QUOTA_ERROR", "QUOTA_EXCEEDED"] then "quota"
  else if code ∈ ["BUDGET_EXCEEDED"] then "budget"
  else if code = "missing_credential" then "configuration"
  else "unknown"

/-- Rendering of a `RecoveryGuidance` into the `recovery` sub-dict of
`format_error` (documentation and retry-after only when truthy). -/
def recovery_to_jx (g : RecoveryGuidance) : Jx :=
  .obj ([("summary", .str g.summary),
         ("steps", .arr (g.steps.map Jx.str))]
        ++ (if g.docs_url.getD "" ≠ "" then
              [("documentation", .str (g.docs_url.getD ""))] else [])
        ++ (if g.retry_after.getD 0 ≠ 0 then
              [("retry_after_seconds", .num (g.retry_after.getD 0))] else []))

/-- `format_error`: exact `(service, code)` lookup, generic fallback,
message selection (note the Python parse
`(original_message or guidance.summary) if guidance else "Unknown error"`),
category, optional recovery block and optional context. -/
def format_error (service error_code original_message : String)
    (context : Option Jx) : Jx :=
  let guidance : Option RecoveryGuidance :=
    match lookupGuides service error_code with
    | some g => some g
    | none => generic_guidance error_code
  let message : String :=
    match guidance with
    | some g => if original_message = "" then g.summary else original_message
    | none => "Unknown error"
  .obj ([("error", .bool true),
         ("service", .str service),
         ("code", .str error_code),
         ("message", .str message),
         ("category", .str (categorize_error error_code))]
        ++ (match guidance with
            | some g => [("recovery", recovery_to_jx g)]
            | none => [])
        ++ (match context with
            | some c => [("context", c)]
            | none => []))

/-- `format_missing_credential_error`. -/
def format_missing_credential_error (service : String) : Jx :=
  format_error service "missing_credential" "" none

-- ===========================================================================
-- GoogleAdsAPI write operations (google_ads.py lines 384-595)
-- ===========================================================================

/-- A gateway call dispatched by `GoogleAdsAPI`: the two mutate calls of
`create_campaign`, the mutate of `update_campaign_status`, and the GAQL
search performed by `get_campaign` (a read). -/
inductive GoogleCall where
  | createBudget (amount_micros : Int)
  | createCampaign (status : String)
  | mutateStatus (campaign_id status : String)
  | search (customer_id : String)
deriving DecidableEq

/-- Whether a Google gateway call mutates platform state (the GAQL search
of `get_campaign` is a read). -/
def GoogleCall.isMutation : GoogleCall → Bool
  | .search _ => false
  | _ => true

/-- The structured content of a `GoogleAdsException` as consumed by
`GoogleAdsAPI._handle_error`: request id and (message, code) pairs. -/
structure GoogleAdsError where
  request_id : String
  errors : List (String × String)

/-- `GoogleAdsAPI._handle_error` on a `GoogleAdsException`. -/
def google_handle_error (e : GoogleAdsError) : Jx :=
  .obj [("error", .str "Google Ads API Error"),
        ("request_id", .str e.request_id),
        ("errors", .arr (e.errors.map fun p =>
          .obj [("message", .str p.1), ("code", .str p.2)]))]

/-- The environment a `GoogleAdsAPI` call runs in: whether a client was
initialized, the availability reason when not, the platform responses to
the two create mutations and the status mutation, and the `get_campaign`
read result (`none` = campaign not found; `some m` = found, with optional
`campaign_budget.amount_micros` value `m`). -/
structure GoogleEnv where
  client : Bool
  availability_reason : Option String
  budget_mutate : Except GoogleAdsError Unit
  campaign_mutate : Except GoogleAdsError String
  mutate_status : Except GoogleAdsError Unit
  campaign : Option (Option Int)

/-- `GoogleAdsAPI.get_availability_error`: the missing-credential error,
with the availability reason appended under `details` when present. -/
def google_availability_error (reason : Option String) : Jx :=
  match format_missing_credential_error "google_ads", reason with
  | .obj fields, some r => .obj (fields ++ [("details", .str r)])
  | base, _ => base

/-- The budget-cap error message
`f"Budget ${b} exceeds maximum allowed ${m}"` shared by both platforms. -/
def budget_exceeds_msg (b m : ℚ) : String :=
  "Budget $" ++ moneyStr b ++ " exceeds maximum allowed $" ++ moneyStr m

/-- The result of one mutating call: the returned dict, the gateway calls
it dispatched (in order), and the audit events it emitted. -/
structure Outcome (Call : Type) where
  result : Jx
  calls : List Call
  audit : List AuditEvent

/-- The five-member `CampaignStatusEnum`; `getattr(enum, s, PAUSED)` falls
back to `PAUSED` on any other name. -/
def googleStatusEnum (s : String) : String :=
  if s ∈ ["UNSPECIFIED", "UNKNOWN", "ENABLED", "PAUSED", "REMOVED"] then s
  else "PAUSED"

/-- Last slash-separated segment of a resource name
(`resource_name.split("/")[-1]`). -/
def lastSegment (s : String) : String := (s.splitOn "/").getLastD ""

/-- `GoogleAdsAPI.create_campaign`: no-client error; status forced to
`PAUSED` on both arms of the `force_draft_mode` check; budget-cap block
before any gateway call; confirmation gate for a non-zero budget; then
the budget mutate followed by the campaign mutate with status `PAUSED`.
No audit event is emitted on any path (the module never calls the audit
logger). -/
def google_create_campaign (cfg : ConfigDict) (env : GoogleEnv)
    (_customer_id name campaign_type : String) (budget_amount : ℚ)
    (_bidding_strategy : String) (confirm : Bool) : Outcome GoogleCall :=
  if !env.client then ⟨google_availability_error env.availability_reason, [], []⟩
  else
    let status := if cfg_force_draft_mode cfg then "PAUSED" else "PAUSED"
    let max_budget := get_max_daily_budget cfg
    if max_budget > 0 ∧ budget_amount > max_budget then
      ⟨.obj [("error", .str (budget_exceeds_msg budget_amount max_budget)),
             ("max_budget", .num max_budget)], [], []⟩
    else if budget_amount > 0 ∧ cfg_require_confirmation cfg = true ∧ confirm = false then
      ⟨.obj [("requires_confirmation", .bool true),
             ("message", .str ("Creating campaign \x27" ++ name ++ "\x27 with $"
               ++ moneyStr budget_amount ++ "/day budget. Add --confirm to proceed.")),
             ("details", .obj [("name", .str name),
                               ("type", .str campaign_type),
                               ("budget", .num budget_amount),
                               ("status", .str status)])], [], []⟩
    else
      let micros := intTrunc (budget_amount * 1000000)
      match env.budget_mutate with
      | .error e => ⟨google_handle_error e, [.createBudget micros], []⟩
      | .ok _ =>
        match env.campaign_mutate with
        | .error e =>
            ⟨google_handle_error e,
             [.createBudget micros, .createCampaign "PAUSED"], []⟩
        | .ok resource =>
            ⟨.obj [("success", .bool true),
                   ("campaign_id", .str (lastSegment resource)),
                   ("resource_name", .str resource),
                   ("name", .str name),
                   ("status", .str "PAUSED"),
                   ("budget_daily", .num budget_amount),
                   ("message", .str ("✅ Campaign \x27" ++ name
                     ++ "\x27 created in PAUSED status. Log into Google Ads to review and activate."))],
             [.createBudget micros, .createCampaign "PAUSED"], []⟩

/-- `GoogleAdsAPI.update_campaign_status`: confirmation gate when the new
status upper-cases to `ENABLED`; otherwise the mutate is dispatched with
the enum value (unknown names fall back to `PAUSED`).  No audit event is
emitted on any path. -/
def google_update_campaign_status (cfg : ConfigDict) (env : GoogleEnv)
    (_customer_id campaign_id status : String) (confirm : Bool) :
    Outcome GoogleCall :=
  if !env.client then ⟨google_availability_error env.availability_reason, [], []⟩
  else if (pyUpper status) = "ENABLED" ∧ cfg_require_confirmation cfg = true
      ∧ confirm = false then
    ⟨.obj [("requires_confirmation", .bool true),
           ("message", .str ("⚠️ Enabling campaign " ++ campaign_id
             ++ " will start ad spend. Add --confirm to proceed.")),
           ("warning", .str "This action will make the campaign LIVE and may incur costs.")],
     [], []⟩
  else
    let sent := googleStatusEnum (pyUpper status)
    match env.mutate_status with
    | .error e => ⟨google_handle_error e, [.mutateStatus campaign_id sent], []⟩
    | .ok _ =>
        ⟨.obj [("success", .bool true),
               ("campaign_id", .str campaign_id),
               ("new_status", .str (pyUpper status)),
               ("message", .str ("Campaign " ++ campaign_id
                 ++ " status updated to " ++ (pyUpper status)))],
         [.mutateStatus campaign_id sent], []⟩

/-- `GoogleAdsAPI.update_campaign_budget`: reads the current campaign via
`get_campaign` (a GAQL search) BEFORE any policy check; not-found error;
budget-cap check; confirmation gate for increases; and then — the method
being a documented stub — an error dict directing to the Google Ads UI,
with the current and requested budgets, instead of any mutation.  No
audit event is emitted on any path. -/
def google_update_campaign_budget (cfg : ConfigDict) (env : GoogleEnv)
    (customer_id campaign_id : String) (new_budget : ℚ) (confirm : Bool) :
    Outcome GoogleCall :=
  if !env.client then ⟨google_availability_error env.availability_reason, [], []⟩
  else
    match env.campaign with
    | none =>
        ⟨.obj [("error", .str ("Campaign " ++ campaign_id ++ " not found"))],
         [.search customer_id], []⟩
    | some micros =>
        let current_budget : ℚ := ((micros.getD 0 : Int) : ℚ) / 1000000
        let max_budget := get_max_daily_budget cfg
        if max_budget > 0 ∧ new_budget > max_budget then
          ⟨.obj [("error", .str (budget_exceeds_msg new_budget max_budget)),
                 ("max_budget", .num max_budget)], [.search customer_id], []⟩
        else if new_budget > current_budget ∧ cfg_require_confirmation cfg = true
            ∧ confirm = false then
          ⟨.obj [("requires_confirmation", .bool true),
                 ("message", .str ("⚠️ Increasing budget from $" ++ fmt2 current_budget
                   ++ " to $" ++ fmt2 new_budget ++ ". Add --confirm to proceed.")),
                 ("current_budget", .num current_budget),
                 ("new_budget", .num new_budget)], [.search customer_id], []⟩
        else
          ⟨.obj [("error", .str "Budget update requires updating CampaignBudget resource. Please use Google Ads UI."),
                 ("current_budget", .num current_budget),
                 ("requested_budget", .num new_budget)], [.search customer_id], []⟩

-- ===========================================================================
-- LinkedInAdsAPI write operations (linkedin_ads.py lines 402-599)
-- ===========================================================================

/-- A gateway call dispatched by `LinkedInAdsAPI`: the `get_campaign` read
and the POST/PATCH requests of `_make_request`. -/
inductive LICall where
  | getCampaign (campaign_id : String)
  | post (endpoint : String) (data : Jx)
  | patch (endpoint : String) (data : Jx)

/-- Whether a LinkedIn gateway call mutates platform state. -/
def LICall.isMutation : LICall → Bool
  | .getCampaign _ => false
  | _ => true

/-- The environment a `LinkedInAdsAPI` call runs in: the `get_campaign`
response (`Except` of an error dict, or the parsed current
`dailyBudget.amount`, `none` when the campaign has no daily budget), and
the raw response dicts of the POST and PATCH requests. -/
structure LinkedInEnv where
  campaign : Except Jx (Option ℚ)
  post_response : Jx
  patch_response : Jx

/-- The `{"currencyCode": "USD", "amount": str(q)}` budget sub-dict. -/
def moneyObj (q : ℚ) : Jx :=
  .obj [("currencyCode", .str "USD"), ("amount", .str (moneyStr q))]

/-- `LinkedInAdsAPI.create_campaign`: status hard-coded to `DRAFT`;
budget-cap block before any request; confirmation gate for a non-zero
daily budget; then the POST of the campaign data (with status `DRAFT`),
error passthrough, and the success dict.  No audit event is emitted on
any path. -/
def li_create_campaign (cfg : ConfigDict) (env : LinkedInEnv)
    (account_id name objective : String) (daily_budget total_budget : ℚ)
    (targeting_criteria : Option Jx) (confirm : Bool) : Outcome LICall :=
  let status := "DRAFT"
  let max_budget := get_max_daily_budget cfg
  if max_budget > 0 ∧ daily_budget > max_budget then
    ⟨.obj [("error", .str (budget_exceeds_msg daily_budget max_budget)),
           ("max_budget", .num max_budget)], [], []⟩
  else if daily_budget > 0 ∧ cfg_require_confirmation cfg = true ∧ confirm = false then
    ⟨.obj [("requires_confirmation", .bool true),
           ("message", .str ("Creating campaign \x27" ++ name ++ "\x27 with $"
             ++ moneyStr daily_budget ++ "/day budget. Add --confirm to proceed.")),
           ("details", .obj [("name", .str name),
                             ("objective", .str objective),
                             ("daily_budget", .num daily_budget),
                             ("status", .str status)])], [], []⟩
  else
    let campaign_data := Jx.obj
      ([("account", .str ("urn:li:sponsoredAccount:" ++ account_id)),
        ("name", .str name),
        ("status", .str status),
        ("type", .str "SPONSORED_UPDATES"),
        ("objectiveType", .str objective),
        ("costType", .str "CPC"),
        ("locale", .obj [("country", .str "US"), ("language", .str "en")])]
       ++ (if daily_budget > 0 then [("dailyBudget", moneyObj daily_budget)] else [])
       ++ (if total_budget > 0 then [("totalBudget", moneyObj total_budget)] else [])
       ++ (match targeting_criteria with
           | some t => [("targetingCriteria", t)]
           | none => []))
    let result := env.post_response
    if result.hasKey "error" then ⟨result, [.post "/adCampaigns" campaign_data], []⟩
    else
      ⟨.obj [("success", .bool true),
             ("campaign_id", (result.get? "id").getD .null),
             ("name", .str name),
             ("status", .str "DRAFT"),
             ("daily_budget", .num daily_budget),
             ("message", .str ("✅ Campaign \x27" ++ name
               ++ "\x27 created in DRAFT status. Log into LinkedIn Campaign Manager to review and activate."))],
       [.post "/adCampaigns" campaign_data], []⟩

/-- `LinkedInAdsAPI.update_campaign_status`: confirmation gate when the
new status upper-cases to `ACTIVE`; otherwise a PATCH with the `$set`
payload, error passthrough and the success dict.  No audit event is
emitted on any path. -/
def li_update_campaign_status (cfg : ConfigDict) (env : LinkedInEnv)
    (campaign_id status : String) (confirm : Bool) : Outcome LICall :=
  if (pyUpper status) = "ACTIVE" ∧ cfg_require_confirmation cfg = true
      ∧ confirm = false then
    ⟨.obj [("requires_confirmation", .bool true),
           ("message", .str ("⚠️ Activating campaign " ++ campaign_id
             ++ " will start ad spend. Add --confirm to proceed.")),
           ("warning", .str "This action will make the campaign LIVE and may incur costs.")],
     [], []⟩
  else
    let data := Jx.obj [("patch", .obj [("$set", .obj [("status", .str (pyUpper status))])])]
    let result := env.patch_response
    if result.hasKey "error" then
      ⟨result, [.patch ("/adCampaigns/" ++ campaign_id) data], []⟩
    else
      ⟨.obj [("success", .bool true),
             ("campaign_id", .str campaign_id),
             ("new_status", .str (pyUpper status)),
             ("message", .str ("Campaign " ++ campaign_id
               ++ " status updated to " ++ (pyUpper status)))],
       [.patch ("/adCampaigns/" ++ campaign_id) data], []⟩

/-- The `{"patch": {"$set": ...}}` payload of
`LinkedInAdsAPI.update_campaign_budget`: each budget is included exactly
when its argument `is not None` (so an explicit 0 IS included). -/
def li_budget_update_data (daily_budget total_budget : Option ℚ) : Jx :=
  .obj [("patch", .obj [("$set", .obj
    ((match daily_budget with
      | some q => [("dailyBudget", moneyObj q)]
      | none => [])
     ++ (match total_budget with
         | some q => [("totalBudget", moneyObj q)]
         | none => [])))])]

/-- The Python `None` ↦ JSON null embedding of an optional number. -/
def optNum : Option ℚ → Jx
  | some q => .num q
  | none => .null

/-- The PATCH dispatch tail of `LinkedInAdsAPI.update_campaign_budget`:
build the update payload, send it, pass errors through, else return the
success dict. -/
def li_budget_dispatch (env : LinkedInEnv) (campaign_id : String)
    (daily_budget total_budget : Option ℚ) (readCalls : List LICall) :
    Outcome LICall :=
  let update_data := li_budget_update_data daily_budget total_budget
  let result := env.patch_response
  if result.hasKey "error" then
    ⟨result, readCalls ++ [.patch ("/adCampaigns/" ++ campaign_id) update_data], []⟩
  else
    ⟨.obj [("success", .bool true),
           ("campaign_id", .str campaign_id),
           ("new_daily_budget", optNum daily_budget),
           ("new_total_budget", optNum total_budget),
           ("message", .str ("Campaign " ++ campaign_id ++ " budget updated"))],
     readCalls ++ [.patch ("/adCampaigns/" ++ campaign_id) update_data], []⟩

/-- `LinkedInAdsAPI.update_campaign_budget`: reads the current campaign
BEFORE any policy check (error passthrough); then the budget-cap check
and the increase-confirmation check, both guarded by Python truthiness of
`daily_budget` (`None` and `0` skip both); then the PATCH dispatch.  No
audit event is emitted on any path. -/
def li_update_campaign_budget (cfg : ConfigDict) (env : LinkedInEnv)
    (campaign_id : String) (daily_budget total_budget : Option ℚ)
    (confirm : Bool) : Outcome LICall :=
  match env.campaign with
  | .error errDict => ⟨errDict, [.getCampaign campaign_id], []⟩
  | .ok amt =>
      let current_daily : ℚ := amt.getD 0
      let max_budget := get_max_daily_budget cfg
      if pyTruthy daily_budget = true ∧ max_budget > 0
          ∧ daily_budget.getD 0 > max_budget then
        ⟨.obj [("error", .str (budget_exceeds_msg (daily_budget.getD 0) max_budget)),
               ("max_budget", .num max_budget)], [.getCampaign campaign_id], []⟩
      else if pyTruthy daily_budget = true ∧ daily_budget.getD 0 > current_daily
          ∧ cfg_require_confirmation cfg = true ∧ confirm = false then
        ⟨.obj [("requires_confirmation", .bool true),
               ("message", .str ("⚠️ Increasing budget from $" ++ fmt2 current_daily
                 ++ " to $" ++ fmt2 (daily_budget.getD 0) ++ ". Add --confirm to proceed.")),
               ("current_budget", .num current_daily),
               ("new_budget", .num (daily_budget.getD 0))],
         [.getCampaign campaign_id], []⟩
      else
        li_budget_dispatch env campaign_id daily_budget total_budget
          [.getCampaign campaign_id]

/-- The statuses carried by the `createCampaign` mutate calls in a Google
gateway trace (the status value actually sent to the platform). -/
def googleSentStatuses : List GoogleCall → List String
  | [] => []
  | .createCampaign s :: rest => s :: googleSentStatuses rest
  | _ :: rest => googleSentStatuses rest

/-- The top-level `status` fields of the campaign dicts POSTed in a
LinkedIn gateway trace (the status value actually sent to the platform). -/
def liPostedStatuses : List LICall → List String
  | [] => []
  | .post _ d :: rest =>
      (match d.get? "status" with
       | some (.str s) => [s]
       | _ => []) ++ liPostedStatuses rest
  | _ :: rest => liPostedStatuses rest

-- ===========================================================================
-- Helper lemmas
-- ===========================================================================

theorem string_data_append (a b : String) : (a ++ b).data = a.data ++ b.data := rfl

/-- The shared budget-cap error message does contain the phrase
`exceeds maximum` required of the structured error. -/
theorem budget_msg_contains (b m : ℚ) :
    strContains (budget_exceeds_msg b m) "exceeds maximum" := by
  refine ⟨("Budget $" ++ moneyStr b ++ " ").data, (" allowed $" ++ moneyStr m).data, ?_⟩
  have hC : " exceeds maximum allowed $".data
      = " ".data ++ ("exceeds maximum".data ++ " allowed $".data) := by decide
  simp only [budget_exceeds_msg, string_data_append, List.append_assoc, hC]
  simp [List.cons_append, List.nil_append]

-- ===========================================================================
-- C6: configuration loading
-- ===========================================================================

/-- C6 counterexample: the claim says loading from a missing OR
UNPARSABLE source never raises; but `_load_config` has no `try`/`except`
around `yaml.safe_load`, so a file that exists and does not parse
propagates the parse error out of `AdsConfig.__init__`. -/
theorem c6_unparsable_raises_counterexample :
    (loadConfig googleDefaultConfig (ConfigSource.unparsable "bad: [yaml")).isOk = false
    ∧ (loadConfig linkedinDefaultConfig (ConfigSource.unparsable "bad: [yaml")).isOk = false :=
  ⟨rfl, rfl⟩

/-- C6 (amended): loading from a MISSING source (file absent or `yaml`
module unavailable) never raises and yields the fail-safe defaults —
`max_daily_budget` 0, `max_total_budget` 0, `require_confirmation` true,
`force_draft_mode` true, on both platforms — while an existing but
unparsable source propagates the parse error. -/
theorem c6_missing_config_failsafe_amended :
    loadConfig googleDefaultConfig ConfigSource.missing = .ok googleDefaultConfig
    ∧ loadConfig linkedinDefaultConfig ConfigSource.missing = .ok linkedinDefaultConfig
    ∧ get_max_daily_budget googleDefaultConfig = 0
    ∧ googleDefaultConfig.max_total_budget = some 0
    ∧ cfg_force_draft_mode googleDefaultConfig = true
    ∧ cfg_require_confirmation googleDefaultConfig = true
    ∧ get_max_daily_budget linkedinDefaultConfig = 0
    ∧ linkedinDefaultConfig.max_total_budget = some 0
    ∧ cfg_force_draft_mode linkedinDefaultConfig = true
    ∧ cfg_require_confirmation linkedinDefaultConfig = true
    ∧ ∀ msg, (loadConfig googleDefaultConfig (ConfigSource.unparsable msg)).isOk = false :=
  ⟨rfl, rfl, rfl, rfl, rfl, rfl, rfl, rfl, rfl, rfl, fun _ => rfl⟩

-- ===========================================================================
-- C8: error classification precedence
-- ===========================================================================

/-- C8 counterexample: for a code with neither an exact entry nor a
generic fallback, `format_error` does NOT carry the original message
unchanged — due to the Python parse
`(original_message or guidance.summary) if guidance else "Unknown error"`
the message is the fixed string `Unknown error`; and the category is
whatever the taxonomy assigns the code (here `validation`), not
necessarily `unknown`. -/
theorem c8_unknown_error_counterexample :
    (format_error "apollo" "400" "boom" none).get? "message"
      = some (.str "Unknown error")
    ∧ "Unknown error" ≠ "boom"
    ∧ (format_error "apollo" "400" "boom" none).get? "recovery" = none
    ∧ (format_error "apollo" "400" "boom" none).get? "category"
      = some (.str "validation")
    ∧ "validation" ≠ "unknown" :=
  ⟨rfl, by decide, rfl, rfl, by decide⟩

/-- C8 (amended): classification precedence — an exact (service, code)
entry in `RECOVERY_GUIDES` wins; otherwise the generic code-only fallback
(401, 403, 429, 500) is used; otherwise the record carries no recovery
guidance, its category is the taxonomy value for the code (`unknown` only
when the code is outside the taxonomy), and its message is the fixed
string `Unknown error` — the original message is dropped, not carried. -/
theorem c8_error_precedence_amended (service code msg : String) (ctx : Option Jx) :
    (∀ g, lookupGuides service code = some g →
       (format_error service code msg ctx).get? "recovery" = some (recovery_to_jx g)
       ∧ (format_error service code msg ctx).get? "message"
           = some (.str (if msg = "" then g.summary else msg)))
    ∧ (∀ g, lookupGuides service code = none → generic_guidance code = some g →
       (format_error service code msg ctx).get? "recovery" = some (recovery_to_jx g)
       ∧ (format_error service code msg ctx).get? "message"
           = some (.str (if msg = "" then g.summary else msg)))
    ∧ (lookupGuides service code = none → generic_guidance code = none →
       (format_error service code msg ctx).get? "recovery" = none
       ∧ (format_error service code msg ctx).get? "message" = some (.str "Unknown error")
       ∧ (format_error service code msg ctx).get? "category"
           = some (.str (categorize_error code))) := by
  refine ⟨fun g hg => ?_, fun g hg hgen => ?_, fun hg hgen => ?_⟩
  · simp only [format_error, hg]
    constructor
    · cases hmsg : decide (msg = "") <;>
        simp [Jx.get?, assocLookup]
    · cases hmsg : decide (msg = "") <;>
        simp_all [Jx.get?, assocLookup]
  · simp only [format_error, hg, hgen]
    constructor
    · cases hmsg : decide (msg = "") <;>
        simp [Jx.get?, assocLookup]
    · cases hmsg : decide (msg = "") <;>
        simp_all [Jx.get?, assocLookup]
  · simp only [format_error, hg, hgen]
    refine ⟨?_, ?_, ?_⟩ <;>
      cases ctx <;> simp [Jx.get?, assocLookup]

/-- C8 witness: the amended theorem applied at concrete inputs in all
three precedence classes. -/
theorem c8_error_precedence_witness :
    ((format_error "apollo" "401" "oops" none).get? "recovery"
      = some (recovery_to_jx
          ⟨"Apollo API key is invalid or expired",
           ["1. Log into Apollo: https://app.apollo.io/#/settings/integrations/api",
            "2. Generate a new API key",
            "3. Update APOLLO_API_KEY in your .env file",
            "4. Restart the agent"],
           some "https://apolloio.github.io/apollo-api-docs/#authentication", none⟩)
     ∧ (format_error "apollo" "401" "oops" none).get? "message"
      = some (.str (if "oops" = "" then "Apollo API key is invalid or expired" else "oops")))
    ∧ ((format_error "clearbit" "429" "slow down" none).get? "recovery"
      = some (recovery_to_jx ⟨"Rate limit exceeded",
          ["1. Wait before retrying (usually 30-60 seconds)",
           "2. Reduce request frequency",
           "3. Consider upgrading your plan"], none, some 60⟩))
    ∧ ((format_error "apollo" "999" "boom" none).get? "recovery" = none
       ∧ (format_error "apollo" "999" "boom" none).get? "message"
           = some (.str "Unknown error")
       ∧ (format_error "apollo" "999" "boom" none).get? "category"
           = some (.str (categorize_error "999"))) :=
  ⟨(c8_error_precedence_amended "apollo" "401" "oops" none).1 _ rfl,
   ((c8_error_precedence_amended "clearbit" "429" "slow down" none).2.1 _ rfl rfl).1,
   (c8_error_precedence_amended "apollo" "999" "boom" none).2.2 rfl rfl⟩

-- ===========================================================================
-- C9: GoogleAdsAPI.update_campaign_budget is a stub
-- ===========================================================================

/-- C9: whenever the guardrail checks of
`GoogleAdsAPI.update_campaign_budget` pass (client initialized, campaign
found, budget within the configured cap, and the increase-confirmation
gate not triggered), the method performs no platform mutation: it returns
an error dict directing to the Google Ads UI that carries the current and
requested budgets, and never a `success` key — the only gateway call is
the `get_campaign` read. -/
theorem c9_google_budget_update_is_stub (cfg : ConfigDict) (env : GoogleEnv)
    (cid kid : String) (new_budget : ℚ) (confirm : Bool) (micros : Option Int)
    (hclient : env.client = true)
    (hfound : env.campaign = some micros)
    (hcap : ¬(get_max_daily_budget cfg > 0 ∧ new_budget > get_max_daily_budget cfg))
    (hconf : ¬(new_budget > ((micros.getD 0 : Int) : ℚ) / 1000000
               ∧ cfg_require_confirmation cfg = true ∧ confirm = false)) :
    (google_update_campaign_budget cfg env cid kid new_budget confirm).result.get? "error"
      = some (.str "Budget update requires updating CampaignBudget resource. Please use Google Ads UI.")
    ∧ (google_update_campaign_budget cfg env cid kid new_budget confirm).result.get? "current_budget"
      = some (.num (((micros.getD 0 : Int) : ℚ) / 1000000))
    ∧ (google_update_campaign_budget cfg env cid kid new_budget confirm).result.get? "requested_budget"
      = some (.num new_budget)
    ∧ (google_update_campaign_budget cfg env cid kid new_budget confirm).result.get? "success" = none
    ∧ (google_update_campaign_budget cfg env cid kid new_budget confirm).calls
      = [GoogleCall.search cid]
    ∧ ((google_update_campaign_budget cfg env cid kid new_budget confirm).calls.filter
        GoogleCall.isMutation) = [] := by
  have hnc : (!env.client) = false := by rw [hclient]; rfl
  simp only [google_update_campaign_budget, hnc, Bool.false_eq_true, if_false, hfound]
  rw [if_neg hcap, if_neg hconf]
  exact ⟨rfl, rfl, rfl, rfl, rfl, rfl⟩

/-- C9 witness: the stub behaviour at a concrete decrease (current $100,
requested $50, cap $200). -/
theorem c9_google_budget_update_is_stub_witness :
    (google_update_campaign_budget ⟨some 200, some 0, some 5, some true, some true⟩
      ⟨true, none, .ok (), .ok "customers/1/campaigns/9", .ok (), some (some 100000000)⟩
      "111" "9" 50 false).result.get? "success" = none
    ∧ (google_update_campaign_budget ⟨some 200, some 0, some 5, some true, some true⟩
      ⟨true, none, .ok (), .ok "customers/1/campaigns/9", .ok (), some (some 100000000)⟩
      "111" "9" 50 false).calls.filter GoogleCall.isMutation = [] := by
  have h := c9_google_budget_update_is_stub
    ⟨some 200, some 0, some 5, some true, some true⟩
    ⟨true, none, .ok (), .ok "customers/1/campaigns/9", .ok (), some (some 100000000)⟩
    "111" "9" 50 false (some 100000000) rfl rfl
    (by norm_num [get_max_daily_budget]) (by norm_num)
  exact ⟨h.2.2.2.1, h.2.2.2.2.2⟩

-- ===========================================================================
-- C10: LinkedIn budget update with falsy daily_budget skips the guardrails
-- ===========================================================================

/-- C10: when `daily_budget` is Python-falsy (`None` or `0`), the
budget-cap check and the increase-confirmation check of
`LinkedInAdsAPI.update_campaign_budget` are both skipped: for any policy
settings and any `total_budget` value, once the campaign read succeeds
the PATCH mutation is dispatched directly, with no confirmation request
and no cap error. -/
theorem c10_li_budget_falsy_daily_skips_guardrails (cfg : ConfigDict)
    (env : LinkedInEnv) (kid : String) (daily_budget total_budget : Option ℚ)
    (confirm : Bool) (amt : Option ℚ)
    (hread : env.campaign = .ok amt)
    (hfalsy : pyTruthy daily_budget = false) :
    (li_update_campaign_budget cfg env kid daily_budget total_budget confirm).calls
      = [LICall.getCampaign kid,
         LICall.patch ("/adCampaigns/" ++ kid)
           (li_budget_update_data daily_budget total_budget)]
    ∧ (env.patch_response.hasKey "error" = false →
        (li_update_campaign_budget cfg env kid daily_budget total_budget confirm).result.get? "success"
          = some (.bool true)
        ∧ (li_update_campaign_budget cfg env kid daily_budget total_budget confirm).result.get?
            "requires_confirmation" = none)
    ∧ (env.patch_response.hasKey "error" = true →
        (li_update_campaign_budget cfg env kid daily_budget total_budget confirm).result
          = env.patch_response) := by
  have h1 : ¬(pyTruthy daily_budget = true ∧ get_max_daily_budget cfg > 0
      ∧ daily_budget.getD 0 > get_max_daily_budget cfg) := by
    simp [hfalsy]
  have h2 : ¬(pyTruthy daily_budget = true ∧ daily_budget.getD 0 > amt.getD 0
      ∧ cfg_require_confirmation cfg = true ∧ confirm = false) := by
    simp [hfalsy]
  simp only [li_update_campaign_budget, hread]
  rw [if_neg h1, if_neg h2]
  simp only [li_budget_dispatch]
  cases hp : env.patch_response.hasKey "error" <;>
    simp [hp, Jx.get?, assocLookup]

/-- C10 witness: daily_budget omitted (`None`), a huge total budget, a
tiny cap and confirmation required — the PATCH is dispatched anyway. -/
theorem c10_li_budget_falsy_daily_witness :
    (li_update_campaign_budget ⟨some 1, some 0, some 10, some true, some true⟩
      ⟨.ok (some 100), .obj [], .obj []⟩ "777" none (some 1000000) false).calls
      = [LICall.getCampaign "777",
         LICall.patch ("/adCampaigns/" ++ "777") (li_budget_update_data none (some 1000000))]
    ∧ (li_update_campaign_budget ⟨some 1, some 0, some 10, some true, some true⟩
      ⟨.ok (some 100), .obj [], .obj []⟩ "777" none (some 1000000) false).result.get? "success"
      = some (.bool true) := by
  have h := c10_li_budget_falsy_daily_skips_guardrails
    ⟨some 1, some 0, some 10, some true, some true⟩
    ⟨.ok (some 100), .obj [], .obj []⟩ "777" none (some 1000000) false
    (some 100) rfl rfl
  exact ⟨h.1, (h.2.1 rfl).1⟩

-- ===========================================================================
-- C7: redaction
-- ===========================================================================

mutual

/-- Totality of `redact`: in its output, every denylist-keyed value at any
nesting depth is the marker. -/
theorem redact_fullyRedacted : ∀ j, fullyRedacted (redact j) = true
  | .null => rfl
  | .bool _ => rfl
  | .num _ => rfl
  | .str _ => rfl
  | .obj fields => by
      simp only [redact, fullyRedacted]
      exact redactFields_redacted fields
  | .arr elems => by
      simp only [redact, fullyRedacted]
      exact redactElems_redacted elems

theorem redactFields_redacted : ∀ fs, fieldsRedacted (redactFields fs) = true
  | [] => rfl
  | (k, v) :: rest => by
      by_cases h : pyLower k ∈ sensitive_fields
      · simp [redactFields, fieldsRedacted, h, isMarker, redactFields_redacted rest]
      · simp [redactFields, fieldsRedacted, h, redact_fullyRedacted v,
              redactFields_redacted rest]

theorem redactElems_redacted : ∀ xs, elemsRedacted (redactElems xs) = true
  | [] => rfl
  | x :: rest => by
      simp [redactElems, elemsRedacted, redact_fullyRedacted x,
            redactElems_redacted rest]

end

mutual

/-- Idempotence of `redact`. -/
theorem redact_idem : ∀ j, redact (redact j) = redact j
  | .null => rfl
  | .bool _ => rfl
  | .num _ => rfl
  | .str _ => rfl
  | .obj fields => by
      simp only [redact]
      rw [redactFields_idem fields]
  | .arr elems => by
      simp only [redact]
      rw [redactElems_idem elems]

theorem redactFields_idem : ∀ fs, redactFields (redactFields fs) = redactFields fs
  | [] => rfl
  | (k, v) :: rest => by
      by_cases h : pyLower k ∈ sensitive_fields
      · simp [redactFields, h, redactFields_idem rest]
      · simp [redactFields, h, redact_idem v, redactFields_idem rest]

theorem redactElems_idem : ∀ xs, redactElems (redactElems xs) = redactElems xs
  | [] => rfl
  | x :: rest => by simp [redactElems, redact_idem x, redactElems_idem rest]

end

mutual

/-- Non-sensitive content is untouched: `redact` is the identity on any
value that is already fully redacted (in particular on any value with no
denylisted key at any depth). -/
theorem redact_of_clean : ∀ j, fullyRedacted j = true → redact j = j
  | .null, _ => rfl
  | .bool _, _ => rfl
  | .num _, _ => rfl
  | .str _, _ => rfl
  | .obj fields, h => by
      simp only [fullyRedacted] at h
      simp only [redact]
      rw [redactFields_of_clean fields h]
  | .arr elems, h => by
      simp only [fullyRedacted] at h
      simp only [redact]
      rw [redactElems_of_clean elems h]

theorem redactFields_of_clean : ∀ fs, fieldsRedacted fs = true → redactFields fs = fs
  | [], _ => rfl
  | (k, v) :: rest, h => by
      simp only [fieldsRedacted, Bool.and_eq_true] at h
      by_cases hs : pyLower k ∈ sensitive_fields
      · have hm : isMarker v = true := by simpa [hs] using h.1
        have hv : v = Jx.str "[REDACTED]" := by
          cases v with
          | str s =>
              have hseq : s = "[REDACTED]" := by simpa [isMarker] using hm
              rw [hseq]
          | null => simp [isMarker] at hm
          | bool b => simp [isMarker] at hm
          | num q => simp [isMarker] at hm
          | arr xs => simp [isMarker] at hm
          | obj fs2 => simp [isMarker] at hm
        simp [redactFields, hs, hv, redactFields_of_clean rest h.2]
      · have hclean : fullyRedacted v = true := by simpa [hs] using h.1
        simp [redactFields, hs, redact_of_clean v hclean,
              redactFields_of_clean rest h.2]

theorem redactElems_of_clean : ∀ xs, elemsRedacted xs = true → redactElems xs = xs
  | [], _ => rfl
  | x :: rest, h => by
      simp only [elemsRedacted, Bool.and_eq_true] at h
      simp [redactElems, redact_of_clean x h.1, redactElems_of_clean rest h.2]

end

/-- Redaction preserves the key structure of a dict level. -/
theorem redactFields_keys : ∀ fs : List (String × Jx),
    (redactFields fs).map Prod.fst = fs.map Prod.fst
  | [] => rfl
  | (_, _) :: rest => by simp [redactFields, redactFields_keys rest]

/-- C7 counterexample: the claim requires redaction to cover the `details`
field of the written event, but `AuditLogger.log` sanitizes only
`request_data` and stores `details` as passed: an event logged with a raw
`api_key` in its details is written with the raw value, so the written
event is not fully redacted. -/
theorem c7_details_unredacted_counterexample :
    ((auditLog true "2024-01-01T00:00:00" "create_campaign" "google_ads"
        "Created campaign" true "info" none none
        (some (.obj [("api_key", .str "hunter2")])) none none none).map
      (fun e => fullyRedacted e.to_dict)) = [false]
    ∧ ((auditLog true "2024-01-01T00:00:00" "create_campaign" "google_ads"
        "Created campaign" true "info" none none
        (some (.obj [("api_key", .str "hunter2")])) none none none).map
      (fun e => (e.to_dict.get? "details").bind (fun d => d.get? "api_key")))
      = [some (.str "hunter2")] :=
  ⟨rfl, rfl⟩

/-- C7 (amended): redaction of the `request_data` field of a logged event
is total and idempotent — every denylist-keyed value at any nesting depth
of maps and lists is replaced by the fixed marker, values already free of
raw sensitive entries are unchanged, and applying redaction twice equals
applying it once — but it does NOT extend to the `details` field, which
`AuditLogger.log` writes exactly as passed. -/
theorem c7_redaction_amended (rd : Jx) (dt : Option Jx)
    (now et pf op sev : String) (sc : Bool) (aid cid em : Option String)
    (rs : Option Jx) :
    fullyRedacted (redact rd) = true
    ∧ redact (redact rd) = redact rd
    ∧ (fullyRedacted rd = true → redact rd = rd)
    ∧ ((auditLog true now et pf op sc sev aid cid dt em (some rd) rs).map
         (fun e => e.request_data)) = [some (redact rd)]
    ∧ ((auditLog true now et pf op sc sev aid cid dt em (some rd) rs).map
         (fun e => e.details)) = [dt] :=
  ⟨redact_fullyRedacted rd, redact_idem rd, redact_of_clean rd,
   by simp [auditLog, sanitize_request], by simp [auditLog]⟩

/-- C7 witness: the amended theorem applied at a concrete nested request
dict with a denylisted key, and at a concrete clean dict. -/
theorem c7_redaction_witness :
    fullyRedacted (redact (Jx.obj [("config",
      Jx.obj [("client_secret", Jx.str "s3cr3t"), ("name", Jx.str "test")])])) = true
    ∧ redact (redact (Jx.obj [("config",
        Jx.obj [("client_secret", Jx.str "s3cr3t"), ("name", Jx.str "test")])]))
      = redact (Jx.obj [("config",
        Jx.obj [("client_secret", Jx.str "s3cr3t"), ("name", Jx.str "test")])])
    ∧ redact (Jx.obj [("name", Jx.str "test")]) = Jx.obj [("name", Jx.str "test")]
    ∧ ((auditLog true "t" "create_campaign" "google_ads" "op" true "info" none none
         (some (Jx.str "kept")) none
         (some (Jx.obj [("config",
           Jx.obj [("client_secret", Jx.str "s3cr3t"), ("name", Jx.str "test")])]))
         none).map (fun e => e.details)) = [some (Jx.str "kept")] := by
  have h1 := c7_redaction_amended
    (Jx.obj [("config",
      Jx.obj [("client_secret", Jx.str "s3cr3t"), ("name", Jx.str "test")])])
    (some (Jx.str "kept")) "t" "create_campaign" "google_ads" "op" "info"
    true none none none none
  have h2 := c7_redaction_amended (Jx.obj [("name", Jx.str "test")])
    none "t" "create_campaign" "google_ads" "op" "info" true none none none none
  exact ⟨h1.1, h1.2.1, h2.2.2.1 (by decide), h1.2.2.2.2⟩

-- ===========================================================================
-- C1: campaigns are never created in a spend-enabled status
-- ===========================================================================

/-- The no-client error dict always carries an `error` key. -/
theorem google_availability_error_hasKey (reason : Option String) :
    (google_availability_error reason).hasKey "error" = true := by
  cases reason <;> rfl

/-- The `_handle_error` dict always carries an `error` key. -/
theorem google_handle_error_hasKey (e : GoogleAdsError) :
    (google_handle_error e).hasKey "error" = true := rfl

set_option maxHeartbeats 2000000 in
/-- C1: on both platforms, the status sent to the platform by a
create-campaign call and the status reported in its result (whether in a
success dict or in the details of a confirmation request) is the
platform's non-spending value — `PAUSED` for Google Ads, `DRAFT` for
LinkedIn Ads — for every configuration (in particular for every value of
`force_draft_mode`), every requested budget and every `confirm` flag;
the create signatures accept no caller status at all. -/
theorem c1_create_status_never_spend_enabled
    (cfg : ConfigDict) (genv : GoogleEnv) (lenv : LinkedInEnv)
    (gcid gname gtype gbid : String) (gbudget : ℚ) (gconfirm : Bool)
    (lacct lname lobj : String) (ldaily ltotal : ℚ) (ltarget : Option Jx)
    (lconfirm : Bool) :
    (∀ s ∈ googleSentStatuses
        (google_create_campaign cfg genv gcid gname gtype gbudget gbid gconfirm).calls,
      s = "PAUSED")
    ∧ ((google_create_campaign cfg genv gcid gname gtype gbudget gbid gconfirm).result.hasKey
          "error" = false →
        (google_create_campaign cfg genv gcid gname gtype gbudget gbid gconfirm).result.hasKey
          "requires_confirmation" = true →
        ((google_create_campaign cfg genv gcid gname gtype gbudget gbid gconfirm).result.get?
            "details").bind (fun d => d.get? "status") = some (.str "PAUSED"))
    ∧ ((google_create_campaign cfg genv gcid gname gtype gbudget gbid gconfirm).result.hasKey
          "error" = false →
        (google_create_campaign cfg genv gcid gname gtype gbudget gbid gconfirm).result.hasKey
          "requires_confirmation" = false →
        (google_create_campaign cfg genv gcid gname gtype gbudget gbid gconfirm).result.get?
          "status" = some (.str "PAUSED"))
    ∧ (∀ s ∈ liPostedStatuses
        (li_create_campaign cfg lenv lacct lname lobj ldaily ltotal ltarget lconfirm).calls,
      s = "DRAFT")
    ∧ ((li_create_campaign cfg lenv lacct lname lobj ldaily ltotal ltarget lconfirm).result.hasKey
          "error" = false →
        (li_create_campaign cfg lenv lacct lname lobj ldaily ltotal ltarget lconfirm).result.hasKey
          "requires_confirmation" = true →
        ((li_create_campaign cfg lenv lacct lname lobj ldaily ltotal ltarget lconfirm).result.get?
            "details").bind (fun d => d.get? "status") = some (.str "DRAFT"))
    ∧ ((li_create_campaign cfg lenv lacct lname lobj ldaily ltotal ltarget lconfirm).result.hasKey
          "error" = false →
        (li_create_campaign cfg lenv lacct lname lobj ldaily ltotal ltarget lconfirm).result.hasKey
          "requires_confirmation" = false →
        (li_create_campaign cfg lenv lacct lname lobj ldaily ltotal ltarget lconfirm).result.get?
          "status" = some (.str "DRAFT")) := by
  refine ⟨?_, ?_, ?_, ?_, ?_, ?_⟩ <;>
    · simp only [google_create_campaign, li_create_campaign]
      repeat' split
      all_goals try simp_all [googleSentStatuses, liPostedStatuses,
        google_availability_error_hasKey, google_handle_error_hasKey]
      all_goals simp_all [Jx.hasKey, Jx.get?, assocLookup]

/-- C1 witness: a successful confirmed Google create and a blocked-free
confirmed LinkedIn create at concrete inputs report the non-spending
status. -/
theorem c1_create_status_witness :
    (google_create_campaign ⟨some 100, some 0, some 5, some true, some true⟩
      ⟨true, none, .ok (), .ok "customers/1/campaigns/42", .ok (), none⟩
      "111" "Camp" "SEARCH" 50 "MAXIMIZE_CLICKS" true).result.get? "status"
      = some (.str "PAUSED")
    ∧ (li_create_campaign ⟨some 100, some 0, some 10, some true, some true⟩
      ⟨.ok none, .obj [("id", .str "c9")], .obj []⟩
      "222" "Camp" "WEBSITE_VISITS" 50 0 none true).result.get? "status"
      = some (.str "DRAFT") := by
  have hg := c1_create_status_never_spend_enabled
    ⟨some 100, some 0, some 5, some true, some true⟩
    ⟨true, none, .ok (), .ok "customers/1/campaigns/42", .ok (), none⟩
    ⟨.ok none, .obj [("id", .str "c9")], .obj []⟩
    "111" "Camp" "SEARCH" "MAXIMIZE_CLICKS" 50 true
    "222" "Camp" "WEBSITE_VISITS" 50 0 none true
  exact ⟨hg.2.2.1 rfl rfl, hg.2.2.2.2.2 rfl rfl⟩

-- ===========================================================================
-- C2: budget-cap blocks
-- ===========================================================================

/-- C2 counterexample: the claim says a blocked budget-update call
performs NO gateway/network call, but `update_campaign_budget` reads the
current campaign through the gateway (`get_campaign`, a GAQL search)
BEFORE the cap check: at max 100 and requested 500 with confirm=true the
structured error is returned after one gateway read. -/
theorem c2_update_read_before_block_counterexample :
    (google_update_campaign_budget ⟨some 100, some 0, some 5, some true, some true⟩
      ⟨true, none, .ok (), .ok "r", .ok (), some (some 50000000)⟩
      "cust" "123" 500 true).result.hasKey "error" = true
    ∧ (google_update_campaign_budget ⟨some 100, some 0, some 5, some true, some true⟩
      ⟨true, none, .ok (), .ok "r", .ok (), some (some 50000000)⟩
      "cust" "123" 500 true).calls = [GoogleCall.search "cust"] :=
  ⟨rfl, rfl⟩

/-- C2 (amended): with a positive configured maximum and a requested
budget above it, CREATE calls on both platforms return a structured error
whose message contains `exceeds maximum` and dispatch no gateway call and
no audit event, even with confirm=true; budget-UPDATE calls first read
the current campaign through the gateway and, when that read succeeds,
return the same structured error having dispatched only that read — no
mutating gateway call. -/
theorem c2_budget_cap_block_amended (cfg : ConfigDict)
    (genv : GoogleEnv) (lenv : LinkedInEnv)
    (gcid gname gtype gbid gkid : String) (b : ℚ) (gconfirm : Bool)
    (lacct lname lobj lkid : String) (ltotal : ℚ) (ltarget : Option Jx)
    (lconfirm : Bool) (ltb : Option ℚ)
    (hmax : get_max_daily_budget cfg > 0)
    (hover : b > get_max_daily_budget cfg) :
    (genv.client = true →
      (google_create_campaign cfg genv gcid gname gtype b gbid gconfirm).result.get? "error"
        = some (.str (budget_exceeds_msg b (get_max_daily_budget cfg)))
      ∧ (google_create_campaign cfg genv gcid gname gtype b gbid gconfirm).calls = []
      ∧ (google_create_campaign cfg genv gcid gname gtype b gbid gconfirm).audit = [])
    ∧ ((li_create_campaign cfg lenv lacct lname lobj b ltotal ltarget lconfirm).result.get?
          "error" = some (.str (budget_exceeds_msg b (get_max_daily_budget cfg)))
      ∧ (li_create_campaign cfg lenv lacct lname lobj b ltotal ltarget lconfirm).calls = []
      ∧ (li_create_campaign cfg lenv lacct lname lobj b ltotal ltarget lconfirm).audit = [])
    ∧ (genv.client = true → ∀ micros, genv.campaign = some micros →
        (google_update_campaign_budget cfg genv gcid gkid b gconfirm).result.get? "error"
          = some (.str (budget_exceeds_msg b (get_max_daily_budget cfg)))
        ∧ (google_update_campaign_budget cfg genv gcid gkid b gconfirm).calls
            = [GoogleCall.search gcid]
        ∧ (google_update_campaign_budget cfg genv gcid gkid b gconfirm).calls.filter
            GoogleCall.isMutation = [])
    ∧ (∀ amt, lenv.campaign = .ok amt →
        (li_update_campaign_budget cfg lenv lkid (some b) ltb lconfirm).result.get? "error"
          = some (.str (budget_exceeds_msg b (get_max_daily_budget cfg)))
        ∧ (li_update_campaign_budget cfg lenv lkid (some b) ltb lconfirm).calls
            = [LICall.getCampaign lkid])
    ∧ strContains (budget_exceeds_msg b (get_max_daily_budget cfg)) "exceeds maximum" := by
  have hb0 : b ≠ 0 := ne_of_gt (lt_trans hmax hover)
  refine ⟨?_, ?_, ?_, ?_, budget_msg_contains b (get_max_daily_budget cfg)⟩
  · intro hclient
    have hnc : (!genv.client) = false := by rw [hclient]; rfl
    simp only [google_create_campaign, hnc, Bool.false_eq_true, if_false]
    rw [if_pos ⟨hmax, hover⟩]
    exact ⟨rfl, rfl, rfl⟩
  · simp only [li_create_campaign]
    rw [if_pos ⟨hmax, hover⟩]
    exact ⟨rfl, rfl, rfl⟩
  · intro hclient micros hfound
    have hnc : (!genv.client) = false := by rw [hclient]; rfl
    simp only [google_update_campaign_budget, hnc, Bool.false_eq_true, if_false, hfound]
    rw [if_pos ⟨hmax, hover⟩]
    exact ⟨rfl, rfl, rfl⟩
  · intro amt hread
    have htr : pyTruthy (some b) = true := by simp [pyTruthy, hb0]
    simp only [li_update_campaign_budget, hread]
    rw [if_pos ⟨htr, hmax, hover⟩]
    exact ⟨rfl, rfl⟩

/-- C2 witness: the amended theorem at max 100, requested 500,
confirm=true, on concrete environments. -/
theorem c2_budget_cap_block_witness :
    (google_create_campaign ⟨some 100, some 0, some 5, some true, some true⟩
      ⟨true, none, .ok (), .ok "r", .ok (), some (some 50000000)⟩
      "cust" "Camp" "SEARCH" 500 "MAXIMIZE_CLICKS" true).calls = []
    ∧ (li_create_campaign ⟨some 100, some 0, some 5, some true, some true⟩
      ⟨.ok (some 50), .obj [], .obj []⟩
      "acct" "Camp" "WEBSITE_VISITS" 500 0 none true).calls = []
    ∧ (li_update_campaign_budget ⟨some 100, some 0, some 5, some true, some true⟩
      ⟨.ok (some 50), .obj [], .obj []⟩
      "9" (some 500) none true).calls = [LICall.getCampaign "9"] := by
  have h := c2_budget_cap_block_amended
    ⟨some 100, some 0, some 5, some true, some true⟩
    ⟨true, none, .ok (), .ok "r", .ok (), some (some 50000000)⟩
    ⟨.ok (some 50), .obj [], .obj []⟩
    "cust" "Camp" "SEARCH" "MAXIMIZE_CLICKS" "9" 500 true
    "acct" "Camp" "WEBSITE_VISITS" "9" 0 none true none
    (by norm_num [get_max_daily_budget]) (by norm_num [get_max_daily_budget])
  exact ⟨(h.1 rfl).2.1, h.2.1.2.1, (h.2.2.2.1 (some 50) rfl).2⟩

-- ===========================================================================
-- C3: audit events for BLOCK / NEEDS_CONFIRMATION decisions
-- ===========================================================================

/-- C3 counterexample: the claim requires a budget-cap block to produce
exactly one `budget_limit_exceeded` audit event, but the mutating call
paths never invoke the audit logger: a blocked create produces zero audit
events of any type. -/
theorem c3_block_emits_no_audit_counterexample :
    (google_create_campaign ⟨some 100, some 0, some 5, some true, some true⟩
      ⟨true, none, .ok (), .ok "r", .ok (), none⟩
      "cust" "Camp" "SEARCH" 500 "MAXIMIZE_CLICKS" true).result.hasKey "error" = true
    ∧ ((google_create_campaign ⟨some 100, some 0, some 5, some true, some true⟩
      ⟨true, none, .ok (), .ok "r", .ok (), none⟩
      "cust" "Camp" "SEARCH" 500 "MAXIMIZE_CLICKS" true).audit.filter
        (fun e => e.event_type == "budget_limit_exceeded")).length = 0
    ∧ (li_create_campaign ⟨some 100, some 0, some 5, some true, some true⟩
      ⟨.ok none, .obj [], .obj []⟩
      "acct" "Camp" "WEBSITE_VISITS" 500 0 none true).audit = [] :=
  ⟨rfl, rfl, rfl⟩

/-- C3 (amended): the audit constructors do behave as specified — when
logging is enabled, `log_budget_limit_exceeded` produces exactly one
event, of type `budget_limit_exceeded`, success=false, severity warning,
and `log_confirmation_required` produces exactly one event with
success=false — but no mutating call path of either platform ever
invokes the audit logger, so BLOCK and NEEDS_CONFIRMATION decisions (and
executed mutations) emit zero audit events. -/
theorem c3_audit_success_false_amended
    (now p op reason : String) (r m : ℚ)
    (cfg : ConfigDict) (genv : GoogleEnv) (lenv : LinkedInEnv)
    (s1 s2 s3 s4 s5 s6 s7 s8 s9 s10 s11 s12 : String)
    (q1 q2 q3 q4 : ℚ) (t : Option Jx) (ob1 ob2 : Option ℚ)
    (c1 c2 c3 c4 c5 c6 : Bool) :
    ((log_budget_limit_exceeded true now p r m).map
        (fun e => (e.event_type, e.success, e.severity)))
      = [("budget_limit_exceeded", false, "warning")]
    ∧ ((log_confirmation_required true now p op reason).map
        (fun e => (e.event_type, e.success)))
      = [("confirmation_required", false)]
    ∧ (google_create_campaign cfg genv s1 s2 s3 q1 s4 c1).audit = []
    ∧ (google_update_campaign_status cfg genv s1 s5 s6 c2).audit = []
    ∧ (google_update_campaign_budget cfg genv s1 s5 q2 c3).audit = []
    ∧ (li_create_campaign cfg lenv s7 s8 s9 q3 q4 t c4).audit = []
    ∧ (li_update_campaign_status cfg lenv s10 s11 c5).audit = []
    ∧ (li_update_campaign_budget cfg lenv s12 ob1 ob2 c6).audit = [] := by
  refine ⟨rfl, rfl, ?_, ?_, ?_, ?_, ?_, ?_⟩ <;>
    · simp only [google_create_campaign, google_update_campaign_status,
        google_update_campaign_budget, li_create_campaign,
        li_update_campaign_status, li_update_campaign_budget,
        li_budget_dispatch]
      repeat' split
      all_goals rfl

-- ===========================================================================
-- C4: confirmation gate on spend-enabling transitions and budget increases
-- ===========================================================================

/-- C4 counterexample: the claim says re-invoking with confirm=true
executes the mutation; but for a Google budget increase (current $50,
requested $80, no cap) the confirmed call still performs no mutation and
returns an error dict, because `update_campaign_budget` is a stub. -/
theorem c4_confirmed_increase_not_executed_counterexample :
    (google_update_campaign_budget ⟨some 0, some 0, some 5, some true, some true⟩
      ⟨true, none, .ok (), .ok "r", .ok (), some (some 50000000)⟩
      "cust" "9" 80 true).result.hasKey "success" = false
    ∧ (google_update_campaign_budget ⟨some 0, some 0, some 5, some true, some true⟩
      ⟨true, none, .ok (), .ok "r", .ok (), some (some 50000000)⟩
      "cust" "9" 80 true).result.hasKey "error" = true
    ∧ (google_update_campaign_budget ⟨some 0, some 0, some 5, some true, some true⟩
      ⟨true, none, .ok (), .ok "r", .ok (), some (some 50000000)⟩
      "cust" "9" 80 true).calls.filter GoogleCall.isMutation = [] := by
  norm_num [google_update_campaign_budget, get_max_daily_budget,
    cfg_require_confirmation, Jx.hasKey, Jx.get?, assocLookup, GoogleCall.isMutation]
  rfl

/-- C4 (amended): with `require_confirmation` on, every transition into a
spend-enabling status (Google `ENABLED`, LinkedIn `ACTIVE`) and every
LinkedIn budget increase returns `requires_confirmation: true` with no
mutation when unconfirmed, and executes the mutation when re-invoked with
confirm=true; a Google budget increase also returns
`requires_confirmation: true` with no mutation when unconfirmed, but the
confirmed re-invoke does NOT execute — `update_campaign_budget` is a stub
that returns an error dict without mutating. -/
theorem c4_confirmation_gate_amended (cfg : ConfigDict) (genv : GoogleEnv)
    (lenv : LinkedInEnv) (gcid gkid gstatus lkid lstatus : String)
    (b : ℚ) (amt : Option ℚ) (micros : Option Int) (ltb : Option ℚ)
    (hrc : cfg_require_confirmation cfg = true) :
    (genv.client = true → pyUpper gstatus = "ENABLED" →
      (google_update_campaign_status cfg genv gcid gkid gstatus false).result.get?
          "requires_confirmation" = some (.bool true)
      ∧ (google_update_campaign_status cfg genv gcid gkid gstatus false).calls = []
      ∧ (google_update_campaign_status cfg genv gcid gkid gstatus true).calls
          = [GoogleCall.mutateStatus gkid (googleStatusEnum (pyUpper gstatus))]
      ∧ (genv.mutate_status = .ok () →
          (google_update_campaign_status cfg genv gcid gkid gstatus true).result.get?
            "success" = some (.bool true)))
    ∧ (pyUpper lstatus = "ACTIVE" →
      (li_update_campaign_status cfg lenv lkid lstatus false).result.get?
          "requires_confirmation" = some (.bool true)
      ∧ (li_update_campaign_status cfg lenv lkid lstatus false).calls = []
      ∧ (li_update_campaign_status cfg lenv lkid lstatus true).calls
          = [LICall.patch ("/adCampaigns/" ++ lkid)
              (.obj [("patch", .obj [("$set", .obj [("status", .str (pyUpper lstatus))])])])]
      ∧ (lenv.patch_response.hasKey "error" = false →
          (li_update_campaign_status cfg lenv lkid lstatus true).result.get? "success"
            = some (.bool true)))
    ∧ (lenv.campaign = .ok amt → b ≠ 0 → b > amt.getD 0 →
        ¬(get_max_daily_budget cfg > 0 ∧ b > get_max_daily_budget cfg) →
      (li_update_campaign_budget cfg lenv lkid (some b) ltb false).result.get?
          "requires_confirmation" = some (.bool true)
      ∧ (li_update_campaign_budget cfg lenv lkid (some b) ltb false).calls
          = [LICall.getCampaign lkid]
      ∧ (li_update_campaign_budget cfg lenv lkid (some b) ltb true).calls
          = [LICall.getCampaign lkid,
             LICall.patch ("/adCampaigns/" ++ lkid) (li_budget_update_data (some b) ltb)]
      ∧ (lenv.patch_response.hasKey "error" = false →
          (li_update_campaign_budget cfg lenv lkid (some b) ltb true).result.get? "success"
            = some (.bool true)))
    ∧ (genv.client = true → genv.campaign = some micros →
        b > ((micros.getD 0 : Int) : ℚ) / 1000000 →
        ¬(get_max_daily_budget cfg > 0 ∧ b > get_max_daily_budget cfg) →
      (google_update_campaign_budget cfg genv gcid gkid b false).result.get?
          "requires_confirmation" = some (.bool true)
      ∧ (google_update_campaign_budget cfg genv gcid gkid b false).calls.filter
          GoogleCall.isMutation = []
      ∧ (google_update_campaign_budget cfg genv gcid gkid b true).result.get? "success" = none
      ∧ (google_update_campaign_budget cfg genv gcid gkid b true).calls.filter
          GoogleCall.isMutation = []) := by
  refine ⟨?_, ?_, ?_, ?_⟩
  · intro hclient hs
    refine ⟨?_, ?_, ?_, ?_⟩
    · simp [google_update_campaign_status, hclient, hs, hrc, Jx.get?, assocLookup]
    · simp [google_update_campaign_status, hclient, hs, hrc]
    · cases hms : genv.mutate_status <;>
        simp [google_update_campaign_status, hclient, hs, hrc, hms]
    · intro hok
      simp [google_update_campaign_status, hclient, hs, hrc, hok, Jx.get?, assocLookup]
  · intro hs
    refine ⟨?_, ?_, ?_, ?_⟩
    · simp [li_update_campaign_status, hs, hrc, Jx.get?, assocLookup]
    · simp [li_update_campaign_status, hs, hrc]
    · cases hp : lenv.patch_response.hasKey "error" <;>
        simp [li_update_campaign_status, hs, hrc, hp]
    · intro hp
      simp [li_update_campaign_status, hs, hrc, hp, Jx.get?, assocLookup]
  · intro hread hb0 hinc hcap
    refine ⟨?_, ?_, ?_, ?_⟩
    · simp [li_update_campaign_budget, li_budget_dispatch, hread, pyTruthy, hb0,
        hinc, hcap, hrc, Jx.get?, assocLookup]
    · simp [li_update_campaign_budget, li_budget_dispatch, hread, pyTruthy, hb0,
        hinc, hcap, hrc]
    · cases hp : lenv.patch_response.hasKey "error" <;>
        simp [li_update_campaign_budget, li_budget_dispatch, hread, pyTruthy, hb0,
          hinc, hcap, hrc, hp]
    · intro hp
      simp [li_update_campaign_budget, li_budget_dispatch, hread, pyTruthy, hb0,
        hinc, hcap, hrc, hp, Jx.get?, assocLookup]
  · intro hclient hfound hinc hcap
    refine ⟨?_, ?_, ?_, ?_⟩ <;>
      simp [google_update_campaign_budget, hclient, hfound, hinc, hcap, hrc,
        Jx.get?, assocLookup, GoogleCall.isMutation]

/-- C4 witness: the amended theorem at concrete inputs (Google ENABLED,
LinkedIn ACTIVE, LinkedIn increase 50→80, Google increase 50→80). -/
theorem c4_confirmation_gate_witness :
    (google_update_campaign_status ⟨some 0, some 0, some 5, some true, some true⟩
      ⟨true, none, .ok (), .ok "r", .ok (), some (some 50000000)⟩
      "cust" "9" "ENABLED" false).result.get? "requires_confirmation" = some (.bool true)
    ∧ (li_update_campaign_status ⟨some 0, some 0, some 5, some true, some true⟩
      ⟨.ok (some 50), .obj [], .obj []⟩ "9" "ACTIVE" false).result.get?
        "requires_confirmation" = some (.bool true)
    ∧ (li_update_campaign_budget ⟨some 0, some 0, some 5, some true, some true⟩
      ⟨.ok (some 50), .obj [], .obj []⟩ "9" (some 80) none true).result.get? "success"
        = some (.bool true)
    ∧ (google_update_campaign_budget ⟨some 0, some 0, some 5, some true, some true⟩
      ⟨true, none, .ok (), .ok "r", .ok (), some (some 50000000)⟩
      "cust" "9" 80 true).result.get? "success" = none := by
  have h := c4_confirmation_gate_amended
    ⟨some 0, some 0, some 5, some true, some true⟩
    ⟨true, none, .ok (), .ok "r", .ok (), some (some 50000000)⟩
    ⟨.ok (some 50), .obj [], .obj []⟩
    "cust" "9" "ENABLED" "9" "ACTIVE" 80 (some 50) (some 50000000) none rfl
  refine ⟨(h.1 rfl rfl).1, (h.2.1 rfl).1, ?_, ?_⟩
  · exact ((h.2.2.1 rfl (by norm_num) (by norm_num) (by norm_num [get_max_daily_budget])).2.2.2) rfl
  · exact (h.2.2.2 rfl rfl (by norm_num) (by norm_num [get_max_daily_budget])).2.2.1

-- ===========================================================================
-- C5: no confirmation for decreases and non-spending transitions
-- ===========================================================================

/-- C5 counterexample: the claim says a budget decrease executes the
mutation directly and returns success; but an unconfirmed Google
decrease (current $100, requested $50, no cap) returns an error dict with
no mutation, because `update_campaign_budget` is a stub. -/
theorem c5_decrease_not_executed_counterexample :
    (google_update_campaign_budget ⟨some 0, some 0, some 5, some true, some true⟩
      ⟨true, none, .ok (), .ok "r", .ok (), some (some 100000000)⟩
      "cust" "9" 50 false).result.hasKey "success" = false
    ∧ (google_update_campaign_budget ⟨some 0, some 0, some 5, some true, some true⟩
      ⟨true, none, .ok (), .ok "r", .ok (), some (some 100000000)⟩
      "cust" "9" 50 false).result.hasKey "requires_confirmation" = false
    ∧ (google_update_campaign_budget ⟨some 0, some 0, some 5, some true, some true⟩
      ⟨true, none, .ok (), .ok "r", .ok (), some (some 100000000)⟩
      "cust" "9" 50 false).result.hasKey "error" = true
    ∧ (google_update_campaign_budget ⟨some 0, some 0, some 5, some true, some true⟩
      ⟨true, none, .ok (), .ok "r", .ok (), some (some 100000000)⟩
      "cust" "9" 50 false).calls.filter GoogleCall.isMutation = [] := by
  norm_num [google_update_campaign_budget, get_max_daily_budget,
    cfg_require_confirmation, Jx.hasKey, Jx.get?, assocLookup, GoogleCall.isMutation]
  all_goals first | rfl | exact ⟨rfl, rfl⟩

/-- C5 (amended): a status transition whose target does not upper-case to
the spend-enabling value (Google `ENABLED`, LinkedIn `ACTIVE`) and a
LinkedIn budget decrease never return `requires_confirmation` — with any
`confirm` value the mutation is dispatched directly and, on gateway
success, the call returns success; a Google budget decrease likewise
never asks for confirmation, but instead of executing it returns the
stub error dict directing to the Google Ads UI, with no mutation. -/
theorem c5_safe_transitions_execute_amended (cfg : ConfigDict) (genv : GoogleEnv)
    (lenv : LinkedInEnv) (gcid gkid gstatus lkid lstatus : String)
    (b : ℚ) (amt : Option ℚ) (micros : Option Int) (ltb : Option ℚ) (cf : Bool) :
    (genv.client = true → pyUpper gstatus ≠ "ENABLED" →
      (google_update_campaign_status cfg genv gcid gkid gstatus cf).result.hasKey
          "requires_confirmation" = false
      ∧ (google_update_campaign_status cfg genv gcid gkid gstatus cf).calls
          = [GoogleCall.mutateStatus gkid (googleStatusEnum (pyUpper gstatus))]
      ∧ (genv.mutate_status = .ok () →
          (google_update_campaign_status cfg genv gcid gkid gstatus cf).result.get?
            "success" = some (.bool true)))
    ∧ (pyUpper lstatus ≠ "ACTIVE" →
      (li_update_campaign_status cfg lenv lkid lstatus cf).calls
        = [LICall.patch ("/adCampaigns/" ++ lkid)
            (.obj [("patch", .obj [("$set", .obj [("status", .str (pyUpper lstatus))])])])]
      ∧ (lenv.patch_response.hasKey "error" = false →
          (li_update_campaign_status cfg lenv lkid lstatus cf).result.get? "success"
            = some (.bool true)
          ∧ (li_update_campaign_status cfg lenv lkid lstatus cf).result.get?
              "requires_confirmation" = none))
    ∧ (lenv.campaign = .ok amt → ¬(b > amt.getD 0) →
        ¬(get_max_daily_budget cfg > 0 ∧ b > get_max_daily_budget cfg) →
      (li_update_campaign_budget cfg lenv lkid (some b) ltb cf).calls
        = [LICall.getCampaign lkid,
           LICall.patch ("/adCampaigns/" ++ lkid) (li_budget_update_data (some b) ltb)]
      ∧ (lenv.patch_response.hasKey "error" = false →
          (li_update_campaign_budget cfg lenv lkid (some b) ltb cf).result.get? "success"
            = some (.bool true)
          ∧ (li_update_campaign_budget cfg lenv lkid (some b) ltb cf).result.get?
              "requires_confirmation" = none))
    ∧ (genv.client = true → genv.campaign = some micros →
        ¬(b > ((micros.getD 0 : Int) : ℚ) / 1000000) →
        ¬(get_max_daily_budget cfg > 0 ∧ b > get_max_daily_budget cfg) →
      (google_update_campaign_budget cfg genv gcid gkid b cf).result.hasKey
          "requires_confirmation" = false
      ∧ (google_update_campaign_budget cfg genv gcid gkid b cf).result.get? "error"
          = some (.str "Budget update requires updating CampaignBudget resource. Please use Google Ads UI.")
      ∧ (google_update_campaign_budget cfg genv gcid gkid b cf).result.get? "success" = none
      ∧ (google_update_campaign_budget cfg genv gcid gkid b cf).calls.filter
          GoogleCall.isMutation = []) := by
  refine ⟨?_, ?_, ?_, ?_⟩
  · intro hclient hne
    refine ⟨?_, ?_, ?_⟩
    · cases hms : genv.mutate_status <;>
        simp [google_update_campaign_status, hclient, hne, hms,
          Jx.hasKey, Jx.get?, assocLookup, google_handle_error]
    · cases hms : genv.mutate_status <;>
        simp [google_update_campaign_status, hclient, hne, hms]
    · intro hok
      simp [google_update_campaign_status, hclient, hne, hok, Jx.get?, assocLookup]
  · intro hne
    refine ⟨?_, ?_⟩
    · cases hp : lenv.patch_response.hasKey "error" <;>
        simp [li_update_campaign_status, hne, hp]
    · intro hp
      simp [li_update_campaign_status, hne, hp, Jx.get?, assocLookup]
  · intro hread hdec hcap
    refine ⟨?_, ?_⟩
    · cases hp : lenv.patch_response.hasKey "error" <;>
        simp [li_update_campaign_budget, li_budget_dispatch, hread, hdec, hcap, hp]
    · intro hp
      simp [li_update_campaign_budget, li_budget_dispatch, hread, hdec, hcap, hp,
        Jx.get?, assocLookup]
  · intro hclient hfound hdec hcap
    refine ⟨?_, ?_, ?_, ?_⟩ <;>
      simp [google_update_campaign_budget, hclient, hfound, hdec, hcap,
        Jx.hasKey, Jx.get?, assocLookup, GoogleCall.isMutation]

/-- C5 witness: the amended theorem at concrete inputs (Google PAUSED,
LinkedIn PAUSED, LinkedIn decrease 100→50, Google decrease 100→50). -/
theorem c5_safe_transitions_witness :
    (google_update_campaign_status ⟨some 0, some 0, some 5, some true, some true⟩
      ⟨true, none, .ok (), .ok "r", .ok (), some (some 100000000)⟩
      "cust" "9" "PAUSED" false).result.hasKey "requires_confirmation" = false
    ∧ (li_update_campaign_status ⟨some 0, some 0, some 5, some true, some true⟩
      ⟨.ok (some 100), .obj [], .obj [("status", .str "PAUSED")]⟩
      "9" "PAUSED" false).result.get? "success" = some (.bool true)
    ∧ (li_update_campaign_budget ⟨some 0, some 0, some 5, some true, some true⟩
      ⟨.ok (some 100), .obj [], .obj [("status", .str "PAUSED")]⟩
      "9" (some 50) none false).result.get? "success" = some (.bool true)
    ∧ (google_update_campaign_budget ⟨some 0, some 0, some 5, some true, some true⟩
      ⟨true, none, .ok (), .ok "r", .ok (), some (some 100000000)⟩
      "cust" "9" 50 false).result.get? "success" = none := by
  have h := c5_safe_transitions_execute_amended
    ⟨some 0, some 0, some 5, some true, some true⟩
    ⟨true, none, .ok (), .ok "r", .ok (), some (some 100000000)⟩
    ⟨.ok (some 100), .obj [], .obj [("status", .str "PAUSED")]⟩
    "cust" "9" "PAUSED" "9" "PAUSED" 50 (some 100) (some 100000000) none false
  refine ⟨(h.1 rfl (by decide)).1, ?_, ?_, ?_⟩
  · exact ((h.2.1 (by decide)).2 rfl).1
  · exact ((h.2.2.1 rfl (by norm_num) (by norm_num [get_max_daily_budget])).2 rfl).1
  · exact (h.2.2.2 rfl rfl (by norm_num) (by norm_num [get_max_daily_budget])).2.2.1

end CmoAds
